import Mathlib

/-!
# Verification of the OTP authentication core (lilokie/otp-auth)

Shallow embedding of the Go sources:
* `internal/repository` (Redis OTP repository: `StoreOTP`, `GetOTP`, `DeleteOTP`,
  `CheckRateLimit`, `IncrementRateLimit`),
* `internal/service` (`AuthService.GenerateOTP`, `AuthService.VerifyOTP`,
  `generateRandomOTP`, `powInt`, `generateJWT`),
* `internal/handlers` (`AuthHandler.RequestOTP`, `AuthHandler.VerifyOTP`),
* `internal/middleware` (`OTPRateLimit`, `AuthRequired`).

The external Redis store is modelled as a total key-value map with per-entry
expiry; each single store operation is atomic, mirroring the assumption in the
design.  Time is an explicit `Nat` parameter (`now`).  The PostgreSQL identity
directory and JWT library calls that can fail are passed in as
`Except`-returning functions, mirroring the Go interfaces they implement.
-/

namespace OTPAuth

/-- A value held in the key-value store.  Redis stores strings; integer
counters written by `SET key 1` / `INCR` are modelled with a dedicated
constructor so that the `.Int()` conversions in the Go code stay explicit. -/
inductive RVal where
  | vstr (s : String)
  | vint (n : Int)
deriving DecidableEq, Repr

/-- The string Redis would return for a stored value (`Result()` in go-redis). -/
def RVal.asString : RVal → String
  | .vstr s => s
  | .vint n => toString n

/-- go-redis `Get(...).Int()`: integer values convert directly, string values
are parsed with `strconv.Atoi`, anything unparsable is an error. -/
def RVal.toIntResult : RVal → Except String Int
  | .vint n => .ok n
  | .vstr s =>
    match s.toInt? with
    | some n => .ok n
    | none => .error "invalid int value"

/-- A store entry: a value plus its absolute expiry instant.
`expiresAt = none` means the key has no TTL. -/
structure Entry where
  val : RVal
  expiresAt : Option Nat
deriving DecidableEq, Repr

/-- An entry is live at `now` when it has no TTL or its expiry is in the future
(Redis treats a key as gone from its expiry instant onwards). -/
def Entry.live (e : Entry) (now : Nat) : Bool :=
  match e.expiresAt with
  | none => true
  | some t => decide (now < t)

/-- The external key-value TTL store: a total map from keys to entries. -/
def Store : Type := String → Option Entry

/-- The `GET key` at time `now`: expired entries are treated as absent. -/
def Store.get (st : Store) (now : Nat) (k : String) : Option RVal :=
  match st k with
  | some e => if e.live now then some e.val else none
  | none => none

/-- The `SET key v ttl`: go-redis maps a zero `expiration` to `SET` without
`EX`, i.e. no TTL; otherwise the entry expires at `now + ttl`. -/
def Store.set (st : Store) (now : Nat) (k : String) (v : RVal) (ttl : Nat) : Store :=
  fun k2 =>
    if k2 = k then some ⟨v, if ttl = 0 then none else some (now + ttl)⟩
    else st k2

/-- The `DEL key` (idempotent: deleting an absent key is not an error). -/
def Store.del (st : Store) (k : String) : Store :=
  fun k2 => if k2 = k then none else st k2

/-- The `INCR key`: an absent (or expired) key is set to `1` with no TTL, an
integer value is incremented keeping its TTL, a numeric string is parsed and
incremented, and a non-numeric string leaves the store unchanged (the command
errors without effect). -/
def Store.incr (st : Store) (now : Nat) (k : String) : Store :=
  fun k2 =>
    if k2 = k then
      match st k with
      | some e =>
        if e.live now then
          match e.val with
          | .vint n => some ⟨.vint (n + 1), e.expiresAt⟩
          | .vstr s =>
            match s.toInt? with
            | some n => some ⟨.vint (n + 1), e.expiresAt⟩
            | none => st k
        else some ⟨.vint 1, none⟩
      | none => some ⟨.vint 1, none⟩
    else st k2

/-- The `EXISTS key` (counts only unexpired keys). -/
def Store.existsKey (st : Store) (now : Nat) (k : String) : Bool :=
  (st.get now k).isSome

/-- The integer count a rate-limit read observes: absent keys count as `0`
(`Get(...).Int()` returns `0` together with `redis.Nil`). -/
def Store.getCount (st : Store) (now : Nat) (k : String) : Int :=
  match st.get now k with
  | none => 0
  | some (.vint n) => n
  | some (.vstr s) => (s.toInt?).getD 0

/-- The store with no keys. -/
def emptyStore : Store := fun _ => none

/-! ## Configuration (`config/config.go`) -/

/-- The `RateLimitConfig`: allowed request count and window length (minutes). -/
structure RateLimitConfig where
  count : Int
  time : Nat
deriving Repr

/-- The `OTPConfig`: expiration (seconds), code length, rate-limit policy. -/
structure OTPConfig where
  expiration : Nat
  length : Nat
  rateLimit : RateLimitConfig
deriving Repr

/-- The `JWTConfig`: signing secret and validity period in hours. -/
structure JWTConfig where
  secret : String
  expirationHours : Nat
deriving Repr

/-- The configuration surface the auth core reads. -/
structure Config where
  otp : OTPConfig
  jwt : JWTConfig
deriving Repr

/-- The `Config.GetOTPExpiration` (seconds). -/
def Config.GetOTPExpiration (c : Config) : Nat :=
  c.otp.expiration

/-- The `Config.GetRateLimitDuration` (minutes converted to seconds). -/
def Config.GetRateLimitDuration (c : Config) : Nat :=
  c.otp.rateLimit.time * 60

/-! ## Redis OTP repository (`internal/repository`, `RedisOTPRepository`) -/

/-- Key prefix scheme of the repository. -/
def otpKey (phoneNumber : String) : String := "otp:" ++ phoneNumber

/-- Key of the service-level per-phone rate counter. -/
def rateLimitKey (phoneNumber : String) : String := "rate_limit:" ++ phoneNumber

/-- The `StoreOTP`: store the code under `otp:<phone>` with the given expiration. -/
def StoreOTP (st : Store) (now : Nat) (phoneNumber otp : String) (expiration : Nat) : Store :=
  st.set now (otpKey phoneNumber) (.vstr otp) expiration

/-- The `GetOTP`: fetch the current code; an absent or expired entry is the
`OTP not found or expired` error. -/
def GetOTP (st : Store) (now : Nat) (phoneNumber : String) : Except String String :=
  match st.get now (otpKey phoneNumber) with
  | some v => .ok v.asString
  | none => .error "OTP not found or expired"

/-- The `DeleteOTP`: unconditionally delete the challenge. -/
def DeleteOTP (st : Store) (phoneNumber : String) : Store :=
  st.del (otpKey phoneNumber)

/-- The `CheckRateLimit`: read the counter (absent counts as zero) and report
whether `count >= limit`.  The `window` argument is unused, as in the source. -/
def CheckRateLimit (st : Store) (now : Nat) (phoneNumber : String) (limit : Int)
    (window : Nat) : Except String Bool :=
  match st.get now (rateLimitKey phoneNumber) with
  | none => .ok (decide ((0 : Int) ≥ limit))
  | some v =>
    match v.toIntResult with
    | .ok count => .ok (decide (count ≥ limit))
    | .error _ => .error "error checking rate limit"

/-- The `IncrementRateLimit`: initialize the counter to `1` with TTL `window` if
the key is absent, otherwise increment it (keeping its TTL). -/
def IncrementRateLimit (st : Store) (now : Nat) (phoneNumber : String) (window : Nat) : Store :=
  if st.existsKey now (rateLimitKey phoneNumber) then
    st.incr now (rateLimitKey phoneNumber)
  else
    st.set now (rateLimitKey phoneNumber) (.vint 1) window

/-! ## Identity directory and sessions (`internal/models`, `generateJWT`) -/

/-- The `models.User` (the fields the auth core reads; timestamps are managed by
the external directory). -/
structure User where
  id : String
  phoneNumber : String
deriving DecidableEq, Repr

/-- JWT signing algorithms relevant to this system. -/
inductive JWTAlg where
  | HS256
  | HS384
  | HS512
  | RS256
  | ES256
  | noneAlg
deriving DecidableEq, Repr

/-- The `alg` header value, used in the keyfunc's error message. -/
def JWTAlg.name : JWTAlg → String
  | .HS256 => "HS256"
  | .HS384 => "HS384"
  | .HS512 => "HS512"
  | .RS256 => "RS256"
  | .ES256 => "ES256"
  | .noneAlg => "none"

/-- The `*jwt.SigningMethodHMAC` covers exactly the HMAC-SHA family. -/
def JWTAlg.isHMAC : JWTAlg → Bool
  | .HS256 => true
  | .HS384 => true
  | .HS512 => true
  | _ => false

/-- The claim set `generateJWT` embeds: `user_id`, `phone_number`, `exp`. -/
structure JWTClaims where
  user_id : String
  phone_number : String
  exp : Int
deriving DecidableEq, Repr

/-- A MAC value, modelled symbolically: a signature is characterised by the
algorithm, the key, and the signed payload; verification recomputes it. -/
structure Signature where
  alg : JWTAlg
  key : String
  payload : JWTClaims
deriving DecidableEq, Repr

/-- A decoded JWT: header algorithm, claims, and attached signature. -/
structure JWTToken where
  alg : JWTAlg
  claims : JWTClaims
  sig : Signature
deriving DecidableEq, Repr

namespace AuthService

/-- The `powInt`: `result := 1; result *= x` repeated `y` times. -/
def powInt (x : Nat) : Nat → Nat
  | 0 => 1
  | y + 1 => powInt x y * x

/-- The `generateRandomOTP`: `min = 1*10^(length-1)`, `max = 9*10^(length-1)`,
`otpNum = min + Int63n(max-min+1)`, rendered in decimal.  The random draw is
an explicit parameter; `Int63n` yields a uniform value in `[0, max-min+1)`,
modelled by reducing `draw` modulo that span.  (Faithful to the Go `int64`
arithmetic for `length ≤ 19`, below any overflow.) -/
def generateRandomOTP (length : Nat) (draw : Nat) : String :=
  let mn := 1 * powInt 10 (length - 1)
  let mx := 9 * powInt 10 (length - 1)
  Nat.repr (mn + draw % (mx - mn + 1))

/-- The number of distinct draws `Int63n(max-min+1)` can produce. -/
def otpSpan (length : Nat) : Nat :=
  9 * powInt 10 (length - 1) - 1 * powInt 10 (length - 1) + 1

/-- The `generateJWT`: claims `{user_id, phone_number, exp = now + hours}`,
signed with `HS256` and the configured secret. -/
def generateJWT (cfg : Config) (now : Nat) (user : User) : JWTToken :=
  let claims : JWTClaims :=
    ⟨user.id, user.phoneNumber, (now : Int) + (cfg.jwt.expirationHours : Int) * 3600⟩
  ⟨.HS256, claims, ⟨.HS256, cfg.jwt.secret, claims⟩⟩

/-- The `AuthService.GenerateOTP`: check the per-phone rate limit, generate a
code, store it with the configured TTL, then record the rate-limit increment.
On every error path the store is returned unchanged from that point. -/
def GenerateOTP (cfg : Config) (st : Store) (now : Nat) (phoneNumber : String)
    (draw : Nat) : Except String String × Store :=
  match CheckRateLimit st now phoneNumber cfg.otp.rateLimit.count cfg.GetRateLimitDuration with
  | .error e => (.error ("error checking rate limit: " ++ e), st)
  | .ok true => (.error "rate limit exceeded", st)
  | .ok false =>
    let otp := generateRandomOTP cfg.otp.length draw
    let st1 := StoreOTP st now phoneNumber otp cfg.GetOTPExpiration
    let st2 := IncrementRateLimit st1 now phoneNumber cfg.GetRateLimitDuration
    (.ok otp, st2)

/-- The `AuthService.VerifyOTP`: fetch and compare the stored code, delete it on a
match, resolve the user (any lookup error falls through to `Create`), and sign
a JWT.  The injected `find`/`create`/`sign` mirror the `UserRepository`
interface and the fallible `SignedString` call. -/
def VerifyOTP (find create : String → Except String User)
    (sign : User → Except String JWTToken)
    (st : Store) (now : Nat) (phoneNumber otp : String) :
    Except String (JWTToken × User) × Store :=
  match GetOTP st now phoneNumber with
  | .error e => (.error ("error retrieving OTP: " ++ e), st)
  | .ok storedOTP =>
    if storedOTP ≠ otp then (.error "invalid OTP", st)
    else
      let st1 := DeleteOTP st phoneNumber
      let userResult :=
        match find phoneNumber with
        | .ok user => Except.ok user
        | .error _ =>
          match create phoneNumber with
          | .ok user => Except.ok user
          | .error e => Except.error ("error creating user: " ++ e)
      match userResult with
      | .error e => (.error e, st1)
      | .ok user =>
        match sign user with
        | .error e => (.error ("error generating JWT: " ++ e), st1)
        | .ok token => (.ok (token, user), st1)

end AuthService

/-! ## Middleware (`internal/middleware`) -/

/-- Per-IP key of the OTP rate-limit middleware. -/
def ipRateLimitKey (ip : String) : String := "rate_limit:otp:ip:" ++ ip

/-- Per-phone key of the OTP rate-limit middleware. -/
def phoneRateLimitKey (phoneNumber : String) : String :=
  "rate_limit:otp:phone:" ++ phoneNumber

/-- Outcome of the `OTPRateLimit` middleware. -/
inductive MWOut where
  | next
  | tooManyIP
  | tooManyPhone
  | storeError
deriving DecidableEq, Repr

/-- The phone-scoped half of `OTPRateLimit` (runs only when the body carried a
non-empty `phone_number`): initialize an absent counter, deny when
`phoneCount >= limit`, otherwise increment. -/
def otpRateLimitPhone (st : Store) (now : Nat) (phoneNumber : String)
    (limit : Int) (window : Nat) : MWOut × Store :=
  if phoneNumber = "" then (.next, st)
  else
    match st.get now (phoneRateLimitKey phoneNumber) with
    | none => (.next, st.set now (phoneRateLimitKey phoneNumber) (.vint 1) window)
    | some v =>
      match v.toIntResult with
      | .error _ => (.storeError, st)
      | .ok phoneCount =>
        if phoneCount ≥ limit then (.tooManyPhone, st)
        else (.next, st.incr now (phoneRateLimitKey phoneNumber))

/-- The `RateLimitMiddleware.OTPRateLimit`: the IP scope is evaluated and recorded
first (initialize absent counters; deny at `ipCount >= limit*2`; otherwise
increment), then the phone scope.  `phoneNumber` is the `phone_number` field
extracted from the raw body (`""` when it is absent), before any validation. -/
def OTPRateLimit (st : Store) (now : Nat) (ip : String) (phoneNumber : String)
    (limit : Int) (window : Nat) : MWOut × Store :=
  match st.get now (ipRateLimitKey ip) with
  | none =>
    otpRateLimitPhone (st.set now (ipRateLimitKey ip) (.vint 1) window)
      now phoneNumber limit window
  | some v =>
    match v.toIntResult with
    | .error _ => (.storeError, st)
    | .ok ipCount =>
      if ipCount ≥ limit * 2 then (.tooManyIP, st)
      else otpRateLimitPhone (st.incr now (ipRateLimitKey ip)) now phoneNumber limit window

/-- Outcome of `AuthRequired`. -/
inductive AuthOut where
  | unauthorized (msg : String)
  | authorized (userID phoneNumber : String)
deriving DecidableEq, Repr

/-- The `jwt.Parse` with the keyfunc of `AuthRequired`: the keyfunc rejects any
method that is not `*jwt.SigningMethodHMAC` and otherwise hands back the
configured secret; the library then checks the signature and the `exp` claim. -/
def jwtParse (secret : String) (now : Int) (tok : JWTToken) : Except String JWTClaims :=
  if tok.alg.isHMAC = false then
    .error ("unexpected signing method: " ++ tok.alg.name)
  else if tok.sig ≠ (⟨tok.alg, secret, tok.claims⟩ : Signature) then
    .error "signature is invalid"
  else if tok.claims.exp ≤ now then
    .error "token is expired"
  else
    .ok tok.claims

/-- The `JWTAuthMiddleware.AuthRequired`, from the point where the bearer token
has been extracted: parse/validate the token, then extract `user_id` (parsed
as a UUID by the external `uuid` library, injected as `uuidOk`) and
`phone_number` into the request context. -/
def AuthRequired (uuidOk : String → Bool) (secret : String) (now : Int)
    (tok : JWTToken) : AuthOut :=
  match jwtParse secret now tok with
  | .error e => .unauthorized ("Invalid token: " ++ e)
  | .ok claims =>
    if uuidOk claims.user_id then .authorized claims.user_id claims.phone_number
    else .unauthorized "Invalid user ID in token"

/-! ## HTTP handlers (`internal/handlers`) -/

/-- The tagged responses the two auth handlers can produce. -/
inductive HandlerResp where
  | badRequest (msg : String)
  | unauthorized (msg : String)
  | tooManyRequests (msg : String)
  | internalServerError (msg : String)
  | okRequestOTP (message : String)
  | okVerifyOTP (token : JWTToken) (user : User)
deriving DecidableEq, Repr

/-- Model of `strings.HasPrefix`, rendered on the character list of the string. -/
def hasPref (s pre : String) : Bool :=
  pre.data.isPrefixOf s.data

/-- The Iranian phone-number shape check of the handlers: `+98` with 13
characters, `98` with 12, or `09` with 11. -/
def validIranianPhone (phoneNumber : String) : Bool :=
  (hasPref phoneNumber "+98" && phoneNumber.length == 13)
    || (hasPref phoneNumber "98" && phoneNumber.length == 12)
    || (hasPref phoneNumber "09" && phoneNumber.length == 11)

/-- The validation-failure message of both auth handlers. -/
def invalidPhoneMsg : String :=
  "Invalid Iranian phone number format. Use +989XXXXXXXXX, 989XXXXXXXXX, or 09XXXXXXXXX"

namespace AuthHandler

/-- The `AuthHandler.RequestOTP`: bind the body (`phone_number` is `required`, so
an empty value fails binding), check the phone-number shape, then call
`GenerateOTP`; `rate limit exceeded` maps to 429, other service errors to 500,
success returns a message without echoing the code. -/
def RequestOTP (cfg : Config) (st : Store) (now : Nat) (phoneNumber : String)
    (draw : Nat) : HandlerResp × Store :=
  if phoneNumber = "" then (.badRequest "Invalid request format", st)
  else if validIranianPhone phoneNumber = false then (.badRequest invalidPhoneMsg, st)
  else
    match AuthService.GenerateOTP cfg st now phoneNumber draw with
    | (.error e, st1) =>
      if e = "rate limit exceeded" then (.tooManyRequests "Rate limit exceeded", st1)
      else (.internalServerError ("Error generating OTP: " ++ e), st1)
    | (.ok _, st1) =>
      (.okRequestOTP "OTP sent successfully. Check server logs for the code.", st1)

/-- The `AuthHandler.VerifyOTP`: bind the body (`phone_number` required; `otp`
required, exactly 6 characters, numeric), check the phone-number shape, then
call the service; the two errors `invalid OTP` and
`error retrieving OTP: OTP not found or expired` both map to the single 401
`Invalid or expired OTP` response. -/
def VerifyOTP (find create : String → Except String User)
    (sign : User → Except String JWTToken)
    (st : Store) (now : Nat) (phoneNumber otp : String) : HandlerResp × Store :=
  if phoneNumber = "" then (.badRequest "Invalid request format", st)
  else if otp = "" then (.badRequest "Invalid request format", st)
  else if otp.length ≠ 6 then (.badRequest "OTP must be exactly 6 digits", st)
  else if (otp.data.all Char.isDigit) = false then
    (.badRequest "OTP must contain only numbers", st)
  else if validIranianPhone phoneNumber = false then (.badRequest invalidPhoneMsg, st)
  else
    match AuthService.VerifyOTP find create sign st now phoneNumber otp with
    | (.error e, st1) =>
      if e = "invalid OTP" || e = "error retrieving OTP: OTP not found or expired" then
        (.unauthorized "Invalid or expired OTP", st1)
      else (.internalServerError ("Error verifying OTP: " ++ e), st1)
    | (.ok (token, user), st1) => (.okVerifyOTP token user, st1)

end AuthHandler

/-- The `/v1/auth/request-otp` route as wired in `cmd/main.go`: the
`OTPRateLimit` middleware (with the configured count and window) runs first,
then the `RequestOTP` handler. -/
def RequestOTPPipeline (cfg : Config) (st : Store) (now : Nat) (ip : String)
    (phoneNumber : String) (draw : Nat) : HandlerResp × Store :=
  match OTPRateLimit st now ip phoneNumber cfg.otp.rateLimit.count
      cfg.GetRateLimitDuration with
  | (.next, st1) => AuthHandler.RequestOTP cfg st1 now phoneNumber draw
  | (.tooManyIP, st1) => (.tooManyRequests "Rate limit exceeded", st1)
  | (.tooManyPhone, st1) => (.tooManyRequests "Too many OTP requests for this phone number", st1)
  | (.storeError, st1) => (.internalServerError "Error checking rate limit", st1)

/-! ## Statement-side definitions and concrete fixtures -/

/-- Head test used by `OTPStringShape`: the first character exists and is not
`0`. -/
def headNonzeroDigit : List Char → Bool
  | [] => false
  | c :: _ => c != '0'

/-- Modelled from the spec: an OTP string of exactly `L` decimal digits whose
leading digit is non-zero. -/
def OTPStringShape (L : Nat) (s : String) : Bool :=
  (s.data.length == L) && s.data.all Char.isDigit && headNonzeroDigit s.data

/-- Sequential `GenerateOTP` calls for one phone number: each list element is
`(now, draw)`; the result records the final store and, per call, whether the
call was admitted (`true`) or rejected. -/
def runRequests (cfg : Config) (phoneNumber : String) :
    List (Nat × Nat) → Store → Store × List Bool
  | [], st => (st, [])
  | (now, draw) :: rest, st =>
    match AuthService.GenerateOTP cfg st now phoneNumber draw with
    | (res, st1) =>
      match runRequests cfg phoneNumber rest st1 with
      | (st2, results) =>
        (st2, (match res with | .ok _ => true | .error _ => false) :: results)

/-- A concrete configuration used by witnesses: 6-digit codes, 120 s expiry,
3 requests per 1-minute window, HS256 secret, 24 h sessions. -/
def sampleConfig : Config :=
  { otp := { expiration := 120, length := 6, rateLimit := { count := 3, time := 1 } },
    jwt := { secret := "secret", expirationHours := 24 } }

/-- A concrete user record as returned by the identity directory. -/
def sampleUser : User := ⟨"11111111-1111-1111-1111-111111111111", "09123456789"⟩

/-- The token `generateJWT` mints for `sampleUser` at time 0 under
`sampleConfig`. -/
def sampleToken : JWTToken := AuthService.generateJWT sampleConfig 0 sampleUser

/-- A directory lookup that finds `sampleUser`. -/
def findOk : String → Except String User := fun _ => .ok sampleUser

/-- A directory lookup failing with a backing-database error (not not-found). -/
def findErr : String → Except String User :=
  fun _ => .error "error finding user by phone number: connection refused"

/-- A directory create that succeeds with `sampleUser`. -/
def createOk : String → Except String User := fun _ => .ok sampleUser

/-- A directory create that fails. -/
def createErr : String → Except String User := fun _ => .error "insert failed"

/-- A signing function mirroring `generateJWT` at time 0 under `sampleConfig`. -/
def signOk : User → Except String JWTToken :=
  fun u => .ok (AuthService.generateJWT sampleConfig 0 u)

/-- A store holding one live challenge `code` for `phoneNumber` (TTL 120). -/
def storeWith (phoneNumber code : String) : Store :=
  fun k => if k = otpKey phoneNumber then some ⟨.vstr code, some 120⟩ else none

/-- A store whose per-phone middleware counter is already at the limit 3. -/
def c5Store : Store :=
  fun k => if k = phoneRateLimitKey "09123456789" then some ⟨.vint 3, some 100⟩ else none

end OTPAuth

namespace OTPAuth

/-! ## General lemmas: decimal representation (`strconv.FormatInt`/`Nat.repr`) -/

lemma toDigitsCore_digits (f : Nat) : ∀ (n : Nat) (l : List Char), 0 < n → n < 10 ^ f →
    Nat.toDigitsCore 10 f n l = ((Nat.digits 10 n).map Nat.digitChar).reverse ++ l := by
  induction f with
  | zero => intro n l h0 hlt; simp at hlt; omega
  | succ f ih =>
    intro n l h0 hlt
    have hd : Nat.digits 10 n = n % 10 :: Nat.digits 10 (n / 10) :=
      Nat.digits_def' (by norm_num) h0
    simp only [Nat.toDigitsCore]
    by_cases hdiv : n / 10 = 0
    · simp only [hdiv, if_pos rfl]
      rw [hd, hdiv]
      simp
    · simp only [if_neg hdiv]
      have h10 : 0 < n / 10 := Nat.pos_of_ne_zero hdiv
      have hlt10 : n / 10 < 10 ^ f := by
        rw [Nat.div_lt_iff_lt_mul (by norm_num)]
        calc n < 10 ^ (f + 1) := hlt
        _ = 10 ^ f * 10 := by ring
      rw [ih (n / 10) (Nat.digitChar (n % 10) :: l) h10 hlt10, hd]
      simp

lemma repr_eq_digits (n : Nat) (h : 0 < n) :
    Nat.repr n = (((Nat.digits 10 n).map Nat.digitChar).reverse).asString := by
  have hn : n < 10 ^ (n + 1) := by
    calc n < 10 ^ n := Nat.lt_pow_self (by norm_num) n
    _ ≤ 10 ^ (n + 1) := Nat.pow_le_pow_right (by norm_num) (Nat.le_succ n)
  unfold Nat.repr Nat.toDigits
  rw [toDigitsCore_digits (n + 1) n [] h hn]
  simp

lemma digitChar_isDigit : ∀ d : Nat, d < 10 → (Nat.digitChar d).isDigit = true := by decide

lemma digitChar_eq_zero_iff : ∀ d : Nat, d < 10 → (Nat.digitChar d = '0' ↔ d = 0) := by decide

lemma digitChar_inj : ∀ d < 10, ∀ e < 10, Nat.digitChar d = Nat.digitChar e → d = e := by
  decide

lemma asString_data (l : List Char) : (List.asString l).data = l := rfl

lemma shape_of_range (L v : Nat) (h1 : 1 ≤ L) (hlo : 10 ^ (L - 1) ≤ v) (hhi : v < 10 ^ L) :
    OTPStringShape L (Nat.repr v) = true := by
  have hv : 0 < v := lt_of_lt_of_le (Nat.pos_pow_of_pos (L - 1) (by norm_num)) hlo
  have hlen : (Nat.digits 10 v).length = L := by
    rw [Nat.digits_len 10 v (by norm_num) (Nat.pos_iff_ne_zero.mp hv)]
    have : Nat.log 10 v = L - 1 := by
      apply Nat.log_eq_of_pow_le_of_lt_pow hlo
      rwa [Nat.sub_add_cancel h1]
    omega
  rw [repr_eq_digits v hv]
  unfold OTPStringShape
  rw [asString_data]
  simp only [Bool.and_eq_true]
  refine ⟨⟨?_, ?_⟩, ?_⟩
  · simp [hlen]
  · rw [List.all_eq_true]
    intro c hc
    rw [List.mem_reverse, List.mem_map] at hc
    obtain ⟨d, hd, rfl⟩ := hc
    exact digitChar_isDigit d (Nat.digits_lt_base (by norm_num) hd)
  · have hne : Nat.digits 10 v ≠ [] :=
      Nat.digits_ne_nil_iff_ne_zero.mpr (Nat.pos_iff_ne_zero.mp hv)
    have hlast : (Nat.digits 10 v).getLast? = some ((Nat.digits 10 v).getLast hne) :=
      List.getLast?_eq_getLast _ hne
    have hhead : (((Nat.digits 10 v).map Nat.digitChar).reverse).head?
        = some (Nat.digitChar ((Nat.digits 10 v).getLast hne)) := by
      rw [List.head?_reverse, List.getLast?_map, hlast]
      rfl
    have hlast_ne : (Nat.digits 10 v).getLast hne ≠ 0 :=
      Nat.getLast_digit_ne_zero 10 (Nat.pos_iff_ne_zero.mp hv)
    have hlast_lt : (Nat.digits 10 v).getLast hne < 10 :=
      Nat.digits_lt_base (by norm_num) (List.getLast_mem hne)
    cases hl : (((Nat.digits 10 v).map Nat.digitChar).reverse) with
    | nil => rw [hl] at hhead; simp at hhead
    | cons c tl =>
      rw [hl] at hhead
      simp only [List.head?] at hhead
      have hc : c = Nat.digitChar ((Nat.digits 10 v).getLast hne) := by
        injection hhead
      unfold headNonzeroDigit
      rw [hc]
      have := (digitChar_eq_zero_iff _ hlast_lt).not.mpr hlast_ne
      simpa using this

lemma map_digitChar_inj : ∀ (l1 l2 : List Nat), (∀ x ∈ l1, x < 10) → (∀ x ∈ l2, x < 10) →
    l1.map Nat.digitChar = l2.map Nat.digitChar → l1 = l2 := by
  intro l1
  induction l1 with
  | nil => intro l2 _ _ h; cases l2 <;> simp_all
  | cons a tl ih =>
    intro l2 h1 h2 h
    cases l2 with
    | nil => simp_all
    | cons b tl2 =>
      simp only [List.map_cons, List.cons.injEq] at h
      have ha : a = b := digitChar_inj a (h1 a (by simp)) b (h2 b (by simp)) h.1
      have := ih tl2 (fun x hx => h1 x (by simp [hx])) (fun x hx => h2 x (by simp [hx])) h.2
      simp [ha, this]

lemma repr_injective (m n : Nat) (hm : 0 < m) (hn : 0 < n) (h : Nat.repr m = Nat.repr n) :
    m = n := by
  rw [repr_eq_digits m hm, repr_eq_digits n hn] at h
  have hl : ((Nat.digits 10 m).map Nat.digitChar).reverse
      = ((Nat.digits 10 n).map Nat.digitChar).reverse := by
    have := congrArg String.data h
    rwa [asString_data, asString_data] at this
  have hmap : (Nat.digits 10 m).map Nat.digitChar = (Nat.digits 10 n).map Nat.digitChar :=
    List.reverse_injective hl
  have hdig : Nat.digits 10 m = Nat.digits 10 n :=
    map_digitChar_inj _ _ (fun x hx => Nat.digits_lt_base (by norm_num) hx)
      (fun x hx => Nat.digits_lt_base (by norm_num) hx) hmap
  have := congrArg (Nat.ofDigits 10) hdig
  rwa [Nat.ofDigits_digits, Nat.ofDigits_digits] at this

lemma powInt_eq_pow (x : Nat) : ∀ y : Nat, AuthService.powInt x y = x ^ y := by
  intro y
  induction y with
  | zero => rfl
  | succ y ih => rw [AuthService.powInt, ih, pow_succ]

lemma generateRandomOTP_def (L draw : Nat) :
    AuthService.generateRandomOTP L draw
      = Nat.repr (10 ^ (L - 1) + draw % (8 * 10 ^ (L - 1) + 1)) := by
  show Nat.repr (1 * AuthService.powInt 10 (L - 1)
      + draw % (9 * AuthService.powInt 10 (L - 1) - 1 * AuthService.powInt 10 (L - 1) + 1))
    = _
  rw [powInt_eq_pow]
  have h1 : 1 ≤ 10 ^ (L - 1) := Nat.one_le_pow _ _ (by norm_num)
  have hm : 9 * 10 ^ (L - 1) - 1 * 10 ^ (L - 1) + 1 = 8 * 10 ^ (L - 1) + 1 := by omega
  rw [hm, one_mul]

lemma generateRandomOTP_eq (L draw : Nat) (h : draw < AuthService.otpSpan L) :
    AuthService.generateRandomOTP L draw = Nat.repr (10 ^ (L - 1) + draw) := by
  rw [generateRandomOTP_def]
  have h1 : 1 ≤ 10 ^ (L - 1) := Nat.one_le_pow _ _ (by norm_num)
  have hspan : AuthService.otpSpan L = 8 * 10 ^ (L - 1) + 1 := by
    unfold AuthService.otpSpan
    rw [powInt_eq_pow]
    omega
  rw [hspan] at h
  rw [Nat.mod_eq_of_lt h]

end OTPAuth

namespace OTPAuth

/-! ## General lemmas: the key-value store model -/

lemma Store.get_del_self (st : Store) (now : Nat) (k : String) :
    (st.del k).get now k = none := by
  unfold Store.del Store.get
  simp

lemma Store.get_del_ne (st : Store) (now : Nat) (k k2 : String) (h : k2 ≠ k) :
    (st.del k).get now k2 = st.get now k2 := by
  unfold Store.del Store.get
  simp [h]

lemma Store.del_apply_self (st : Store) (k : String) : (st.del k) k = none := by
  unfold Store.del
  simp

lemma Store.get_set_self (st : Store) (now : Nat) (k : String) (v : RVal) (ttl : Nat) :
    (st.set now k v ttl).get now k = some v := by
  unfold Store.set Store.get
  simp only [if_pos rfl]
  by_cases h : ttl = 0
  · simp [h, Entry.live]
  · simp [h, Entry.live, Nat.lt_add_of_pos_right (Nat.pos_of_ne_zero h)]

lemma Store.set_apply_self (st : Store) (now : Nat) (k : String) (v : RVal) (ttl : Nat) :
    (st.set now k v ttl) k = some ⟨v, if ttl = 0 then none else some (now + ttl)⟩ := by
  unfold Store.set
  simp

lemma Store.set_apply_ne (st : Store) (now : Nat) (k : String) (v : RVal) (ttl : Nat)
    (k2 : String) (h : k2 ≠ k) : (st.set now k v ttl) k2 = st k2 := by
  unfold Store.set
  simp [h]

lemma Store.incr_apply_ne (st : Store) (now : Nat) (k k2 : String) (h : k2 ≠ k) :
    (st.incr now k) k2 = st k2 := by
  unfold Store.incr
  simp [h]

lemma Store.get_eq_of_apply_eq (st st2 : Store) (now : Nat) (k : String)
    (h : st2 k = st k) : st2.get now k = st.get now k := by
  unfold Store.get
  rw [h]

lemma Store.get_some_inv (st : Store) (now : Nat) (k : String) (v : RVal)
    (h : st.get now k = some v) :
    ∃ e : Entry, st k = some e ∧ e.live now = true ∧ e.val = v := by
  unfold Store.get at h
  split at h
  · next e heq =>
    split at h
    · next hlive => exact ⟨e, heq, hlive, by injection h⟩
    · exact absurd h (by simp)
  · exact absurd h (by simp)

lemma Store.get_none_of_raw_none (st : Store) (now : Nat) (k : String)
    (h : st k = none) : st.get now k = none := by
  unfold Store.get
  rw [h]

lemma Store.get_of_raw_live (st : Store) (now : Nat) (k : String) (e : Entry)
    (hraw : st k = some e) (hlive : e.live now = true) : st.get now k = some e.val := by
  unfold Store.get
  rw [hraw]
  simp [hlive]

lemma Store.get_none_of_dead (st : Store) (now : Nat) (k : String) (e : Entry)
    (hraw : st k = some e) (hdead : e.live now = false) : st.get now k = none := by
  unfold Store.get
  rw [hraw]
  simp [hdead]

lemma Entry.live_some (v : RVal) (t now : Nat) :
    Entry.live ⟨v, some t⟩ now = decide (now < t) := rfl

lemma Store.getCount_set_one (st : Store) (now : Nat) (k : String) (window : Nat)
    (h : st.get now k = none) :
    Store.getCount (st.set now k (.vint 1) window) now k = Store.getCount st now k + 1 := by
  unfold Store.getCount
  rw [h, Store.get_set_self]
  simp

lemma Store.incr_apply_self_live (st : Store) (now : Nat) (k : String) (e : Entry)
    (hraw : st k = some e) (hlive : e.live now = true) :
    (st.incr now k) k
      = (match e.val with
         | .vint n => some ⟨.vint (n + 1), e.expiresAt⟩
         | .vstr s =>
           match s.toInt? with
           | some n => some ⟨.vint (n + 1), e.expiresAt⟩
           | none => st k) := by
  unfold Store.incr
  simp [hraw, hlive]

lemma Store.getCount_incr (st : Store) (now : Nat) (k : String) (v : RVal) (n : Int)
    (hget : st.get now k = some v) (hn : v.toIntResult = .ok n) :
    Store.getCount (st.incr now k) now k = Store.getCount st now k + 1 := by
  obtain ⟨e, hraw, hlive, hval⟩ := Store.get_some_inv st now k v hget
  have hlive2 : ∀ v2 : RVal, Entry.live ⟨v2, e.expiresAt⟩ now = true := by
    intro v2
    rw [show (⟨v2, e.expiresAt⟩ : Entry).live now = e.live now from by cases e; rfl]
    exact hlive
  unfold Store.getCount
  rw [hget]
  cases v with
  | vint m =>
    have hm : m = n := by
      simp only [RVal.toIntResult] at hn
      injection hn
    have happ : (st.incr now k) k = some ⟨.vint (m + 1), e.expiresAt⟩ := by
      rw [Store.incr_apply_self_live st now k e hraw hlive, hval]
    have : (st.incr now k).get now k = some (.vint (m + 1)) := by
      unfold Store.get
      rw [happ]
      simp [hlive2]
    rw [this]
  | vstr s =>
    cases hs : s.toInt? with
    | none =>
      have hbad : RVal.toIntResult (.vstr s) = .error "invalid int value" := by
        simp only [RVal.toIntResult]
        rw [hs]
      rw [hbad] at hn
      simp at hn
    | some m =>
      have hok : RVal.toIntResult (.vstr s) = .ok m := by
        simp only [RVal.toIntResult]
        rw [hs]
      rw [hok] at hn
      have hm : m = n := by injection hn
      have happ : (st.incr now k) k = some ⟨.vint (m + 1), e.expiresAt⟩ := by
        rw [Store.incr_apply_self_live st now k e hraw hlive, hval]
        simp [hs]
      have : (st.incr now k).get now k = some (.vint (m + 1)) := by
        unfold Store.get
        rw [happ]
        simp [hlive2]
      rw [this]
      simp [hs, hm]

lemma Store.getCount_congr (st st2 : Store) (now : Nat) (k : String) (h : st2 k = st k) :
    st2.getCount now k = st.getCount now k := by
  unfold Store.getCount
  rw [Store.get_eq_of_apply_eq st st2 now k h]

/-! ## General lemmas: key disjointness -/

lemma ipKey_ne_phoneKey (ip p : String) : ipRateLimitKey ip ≠ phoneRateLimitKey p := by
  intro h
  have hd := congrArg (fun s : String => s.data[15]?) h
  simp only [ipRateLimitKey, phoneRateLimitKey, String.data_append] at hd
  rw [List.getElem?_append_left (by decide), List.getElem?_append_left (by decide)] at hd
  exact absurd hd (by decide)

lemma otpKey_ne_rateLimitKey (p q : String) : otpKey p ≠ rateLimitKey q := by
  intro h
  have hd := congrArg (fun s : String => s.data[0]?) h
  simp only [otpKey, rateLimitKey, String.data_append] at hd
  rw [List.getElem?_append_left (by decide), List.getElem?_append_left (by decide)] at hd
  exact absurd hd (by decide)

end OTPAuth

namespace OTPAuth

/-! ## General lemmas: `AuthService.VerifyOTP` case analysis -/

lemma VerifyOTP_no_challenge (find create : String → Except String User)
    (sign : User → Except String JWTToken) (st : Store) (now : Nat) (phoneNumber otp : String)
    (h : st.get now (otpKey phoneNumber) = none) :
    AuthService.VerifyOTP find create sign st now phoneNumber otp
      = (.error "error retrieving OTP: OTP not found or expired", st) := by
  unfold AuthService.VerifyOTP GetOTP
  rw [h]
  rfl

lemma VerifyOTP_mismatch (find create : String → Except String User)
    (sign : User → Except String JWTToken) (st : Store) (now : Nat) (phoneNumber otp : String)
    (v : RVal) (hv : st.get now (otpKey phoneNumber) = some v) (hne : v.asString ≠ otp) :
    AuthService.VerifyOTP find create sign st now phoneNumber otp
      = (.error "invalid OTP", st) := by
  unfold AuthService.VerifyOTP GetOTP
  rw [hv]
  show (if v.asString ≠ otp then _ else _) = _
  rw [if_pos hne]

lemma VerifyOTP_match (find create : String → Except String User)
    (sign : User → Except String JWTToken) (st : Store) (now : Nat) (phoneNumber otp : String)
    (v : RVal) (hv : st.get now (otpKey phoneNumber) = some v) (heq : v.asString = otp) :
    AuthService.VerifyOTP find create sign st now phoneNumber otp
      = ((match (match find phoneNumber with
                 | .ok user => Except.ok user
                 | .error _ =>
                   match create phoneNumber with
                   | .ok user => Except.ok user
                   | .error e => Except.error ("error creating user: " ++ e)) with
          | .error e => Except.error e
          | .ok user =>
            match sign user with
            | .error e => Except.error ("error generating JWT: " ++ e)
            | .ok token => Except.ok (token, user)),
         DeleteOTP st phoneNumber) := by
  unfold AuthService.VerifyOTP GetOTP
  rw [hv]
  simp only [heq, ite_not, if_pos rfl, ne_eq, not_true_eq_false, if_false]
  cases hf : find phoneNumber with
  | ok user =>
    simp only [hf]
    cases hs : sign user <;> simp [hs]
  | error e =>
    simp only [hf]
    cases hc : create phoneNumber with
    | ok user =>
      simp only [hc]
      cases hs : sign user <;> simp [hs]
    | error e2 => simp [hc]

lemma VerifyOTP_ok_store (find create : String → Except String User)
    (sign : User → Except String JWTToken) (st : Store) (now : Nat) (phoneNumber code : String)
    (r : JWTToken × User) (st1 : Store)
    (h : AuthService.VerifyOTP find create sign st now phoneNumber code = (.ok r, st1)) :
    st1 = DeleteOTP st phoneNumber := by
  cases hget : st.get now (otpKey phoneNumber) with
  | none =>
    rw [VerifyOTP_no_challenge find create sign st now phoneNumber code hget] at h
    simp at h
  | some v =>
    by_cases hne : v.asString ≠ code
    · rw [VerifyOTP_mismatch find create sign st now phoneNumber code v hget hne] at h
      simp at h
    · push_neg at hne
      rw [VerifyOTP_match find create sign st now phoneNumber code v hget hne] at h
      have := congrArg Prod.snd h
      simpa using this.symm

/-! ## General lemmas: the verify handler -/

lemma validIranianPhone_ne_empty (p : String) (h : validIranianPhone p = true) : p ≠ "" := by
  intro he
  subst he
  exact absurd h (by decide)

lemma length_ne_empty (s : String) (h : s.length = 6) : s ≠ "" := by
  intro he
  subst he
  simp at h

lemma VerifyOTPHandler_bind_ok (find create : String → Except String User)
    (sign : User → Except String JWTToken) (st : Store) (now : Nat) (phoneNumber code : String)
    (hphone : validIranianPhone phoneNumber = true) (hlen : code.length = 6)
    (hdig : code.data.all Char.isDigit = true) :
    AuthHandler.VerifyOTP find create sign st now phoneNumber code
      = (match AuthService.VerifyOTP find create sign st now phoneNumber code with
         | (.error e, st1) =>
           if e = "invalid OTP" || e = "error retrieving OTP: OTP not found or expired" then
             (.unauthorized "Invalid or expired OTP", st1)
           else (.internalServerError ("Error verifying OTP: " ++ e), st1)
         | (.ok (token, user), st1) => (.okVerifyOTP token user, st1)) := by
  unfold AuthHandler.VerifyOTP
  rw [if_neg (validIranianPhone_ne_empty phoneNumber hphone),
    if_neg (length_ne_empty code hlen),
    if_neg (by simp [hlen]),
    if_neg (by simp [hdig]),
    if_neg (by simp [hphone])]

lemma VerifyOTPHandler_invalid_of_absent (find create : String → Except String User)
    (sign : User → Except String JWTToken) (st : Store) (now : Nat) (phoneNumber code : String)
    (hphone : validIranianPhone phoneNumber = true) (hlen : code.length = 6)
    (hdig : code.data.all Char.isDigit = true)
    (habs : st.get now (otpKey phoneNumber) = none) :
    AuthHandler.VerifyOTP find create sign st now phoneNumber code
      = (.unauthorized "Invalid or expired OTP", st) := by
  rw [VerifyOTPHandler_bind_ok find create sign st now phoneNumber code hphone hlen hdig,
    VerifyOTP_no_challenge find create sign st now phoneNumber code habs]
  rfl

lemma VerifyOTPHandler_invalid_of_mismatch (find create : String → Except String User)
    (sign : User → Except String JWTToken) (st : Store) (now : Nat) (phoneNumber code : String)
    (v : RVal) (hphone : validIranianPhone phoneNumber = true) (hlen : code.length = 6)
    (hdig : code.data.all Char.isDigit = true)
    (hv : st.get now (otpKey phoneNumber) = some v) (hne : v.asString ≠ code) :
    AuthHandler.VerifyOTP find create sign st now phoneNumber code
      = (.unauthorized "Invalid or expired OTP", st) := by
  rw [VerifyOTPHandler_bind_ok find create sign st now phoneNumber code hphone hlen hdig,
    VerifyOTP_mismatch find create sign st now phoneNumber code v hv hne]
  rfl

end OTPAuth

namespace OTPAuth

/-! ## General lemmas: the OTP rate-limit middleware -/

lemma OTPRateLimit_ip_none (st : Store) (now : Nat) (ip p : String) (limit : Int) (window : Nat)
    (hip : st.get now (ipRateLimitKey ip) = none) :
    OTPRateLimit st now ip p limit window
      = otpRateLimitPhone (st.set now (ipRateLimitKey ip) (.vint 1) window) now p limit window := by
  unfold OTPRateLimit
  rw [hip]

lemma OTPRateLimit_ip_ok (st : Store) (now : Nat) (ip p : String) (limit : Int) (window : Nat)
    (v : RVal) (n : Int) (hip : st.get now (ipRateLimitKey ip) = some v)
    (hn : v.toIntResult = .ok n) (hlt : ¬ n ≥ limit * 2) :
    OTPRateLimit st now ip p limit window
      = otpRateLimitPhone (st.incr now (ipRateLimitKey ip)) now p limit window := by
  unfold OTPRateLimit
  rw [hip]
  simp only [hn]
  rw [if_neg hlt]

lemma OTPRateLimit_ip_deny (st : Store) (now : Nat) (ip p : String) (limit : Int) (window : Nat)
    (v : RVal) (n : Int) (hip : st.get now (ipRateLimitKey ip) = some v)
    (hn : v.toIntResult = .ok n) (hge : n ≥ limit * 2) :
    OTPRateLimit st now ip p limit window = (.tooManyIP, st) := by
  unfold OTPRateLimit
  rw [hip]
  simp only [hn]
  rw [if_pos hge]

lemma OTPRateLimit_ip_err (st : Store) (now : Nat) (ip p : String) (limit : Int) (window : Nat)
    (v : RVal) (e : String) (hip : st.get now (ipRateLimitKey ip) = some v)
    (hn : v.toIntResult = .error e) :
    OTPRateLimit st now ip p limit window = (.storeError, st) := by
  unfold OTPRateLimit
  rw [hip]
  simp only [hn]

lemma otpRateLimitPhone_none_eq (st : Store) (now : Nat) (p : String) (limit : Int)
    (window : Nat) (hp : p ≠ "") (hpget : st.get now (phoneRateLimitKey p) = none) :
    otpRateLimitPhone st now p limit window
      = (.next, st.set now (phoneRateLimitKey p) (.vint 1) window) := by
  unfold otpRateLimitPhone
  rw [if_neg hp, hpget]

lemma otpRateLimitPhone_ok_eq (st : Store) (now : Nat) (p : String) (limit : Int)
    (window : Nat) (v : RVal) (c : Int) (hp : p ≠ "")
    (hpget : st.get now (phoneRateLimitKey p) = some v) (hn : v.toIntResult = .ok c)
    (hlt : ¬ c ≥ limit) :
    otpRateLimitPhone st now p limit window = (.next, st.incr now (phoneRateLimitKey p)) := by
  unfold otpRateLimitPhone
  rw [if_neg hp, hpget]
  simp only [hn]
  rw [if_neg hlt]

lemma otpRateLimitPhone_deny_eq (st : Store) (now : Nat) (p : String) (limit : Int)
    (window : Nat) (v : RVal) (c : Int) (hp : p ≠ "")
    (hpget : st.get now (phoneRateLimitKey p) = some v) (hn : v.toIntResult = .ok c)
    (hge : c ≥ limit) :
    otpRateLimitPhone st now p limit window = (.tooManyPhone, st) := by
  unfold otpRateLimitPhone
  rw [if_neg hp, hpget]
  simp only [hn]
  rw [if_pos hge]

lemma otpRateLimitPhone_err_eq (st : Store) (now : Nat) (p : String) (limit : Int)
    (window : Nat) (v : RVal) (e : String) (hp : p ≠ "")
    (hpget : st.get now (phoneRateLimitKey p) = some v) (hn : v.toIntResult = .error e) :
    otpRateLimitPhone st now p limit window = (.storeError, st) := by
  unfold otpRateLimitPhone
  rw [if_neg hp, hpget]
  simp only [hn]

lemma otpRateLimitPhone_empty_eq (st : Store) (now : Nat) (limit : Int) (window : Nat) :
    otpRateLimitPhone st now "" limit window = (.next, st) := by
  unfold otpRateLimitPhone
  rw [if_pos rfl]

lemma otpRateLimitPhone_deny_frame (st : Store) (now : Nat) (p : String) (limit : Int)
    (window : Nat) (h : (otpRateLimitPhone st now p limit window).1 = .tooManyPhone) :
    (otpRateLimitPhone st now p limit window).2 = st := by
  by_cases hp : p = ""
  · subst hp
    rw [otpRateLimitPhone_empty_eq] at h
    simp at h
  · cases hpget : st.get now (phoneRateLimitKey p) with
    | none =>
      rw [otpRateLimitPhone_none_eq st now p limit window hp hpget] at h
      simp at h
    | some v =>
      cases hn : v.toIntResult with
      | error e =>
        rw [otpRateLimitPhone_err_eq st now p limit window v e hp hpget hn] at h
        simp at h
      | ok c =>
        by_cases hge : c ≥ limit
        · rw [otpRateLimitPhone_deny_eq st now p limit window v c hp hpget hn hge]
        · rw [otpRateLimitPhone_ok_eq st now p limit window v c hp hpget hn hge] at h
          simp at h

lemma otpRateLimitPhone_next_count (st : Store) (now : Nat) (p : String) (limit : Int)
    (window : Nat) (hp : p ≠ "")
    (h : (otpRateLimitPhone st now p limit window).1 = .next) :
    Store.getCount (otpRateLimitPhone st now p limit window).2 now (phoneRateLimitKey p)
        = Store.getCount st now (phoneRateLimitKey p) + 1 ∧
    (∀ k, k ≠ phoneRateLimitKey p → (otpRateLimitPhone st now p limit window).2 k = st k) := by
  cases hpget : st.get now (phoneRateLimitKey p) with
  | none =>
    rw [otpRateLimitPhone_none_eq st now p limit window hp hpget]
    exact ⟨Store.getCount_set_one st now (phoneRateLimitKey p) window hpget,
      fun k hk => Store.set_apply_ne st now (phoneRateLimitKey p) (.vint 1) window k hk⟩
  | some v =>
    cases hn : v.toIntResult with
    | error e =>
      rw [otpRateLimitPhone_err_eq st now p limit window v e hp hpget hn] at h
      simp at h
    | ok c =>
      by_cases hge : c ≥ limit
      · rw [otpRateLimitPhone_deny_eq st now p limit window v c hp hpget hn hge] at h
        simp at h
      · rw [otpRateLimitPhone_ok_eq st now p limit window v c hp hpget hn hge]
        exact ⟨Store.getCount_incr st now (phoneRateLimitKey p) v c hpget hn,
          fun k hk => Store.incr_apply_ne st now (phoneRateLimitKey p) k hk⟩

lemma OTPRateLimit_next_counts (st : Store) (now : Nat) (ip p : String) (limit : Int)
    (window : Nat) (hp : p ≠ "")
    (h : (OTPRateLimit st now ip p limit window).1 = .next) :
    Store.getCount (OTPRateLimit st now ip p limit window).2 now (ipRateLimitKey ip)
        = Store.getCount st now (ipRateLimitKey ip) + 1 ∧
    Store.getCount (OTPRateLimit st now ip p limit window).2 now (phoneRateLimitKey p)
        = Store.getCount st now (phoneRateLimitKey p) + 1 ∧
    (∀ k, k ≠ ipRateLimitKey ip → k ≠ phoneRateLimitKey p →
      (OTPRateLimit st now ip p limit window).2 k = st k) := by
  have hkeys : ipRateLimitKey ip ≠ phoneRateLimitKey p := ipKey_ne_phoneKey ip p
  cases hip : st.get now (ipRateLimitKey ip) with
  | none =>
    rw [OTPRateLimit_ip_none st now ip p limit window hip] at h ⊢
    set st1 := st.set now (ipRateLimitKey ip) (.vint 1) window with hst1
    obtain ⟨hpcount, hframe⟩ := otpRateLimitPhone_next_count st1 now p limit window hp h
    refine ⟨?_, ?_, ?_⟩
    · rw [Store.getCount_congr st1 _ now (ipRateLimitKey ip) (hframe _ hkeys)]
      exact Store.getCount_set_one st now (ipRateLimitKey ip) window hip
    · rw [hpcount]
      have : st1 (phoneRateLimitKey p) = st (phoneRateLimitKey p) :=
        Store.set_apply_ne st now (ipRateLimitKey ip) (.vint 1) window _ hkeys.symm
      rw [Store.getCount_congr st st1 now (phoneRateLimitKey p) this]
    · intro k hk1 hk2
      rw [hframe k hk2]
      exact Store.set_apply_ne st now (ipRateLimitKey ip) (.vint 1) window k hk1
  | some v =>
    cases hn : v.toIntResult with
    | error e =>
      rw [OTPRateLimit_ip_err st now ip p limit window v e hip hn] at h
      simp at h
    | ok n =>
      by_cases hge : n ≥ limit * 2
      · rw [OTPRateLimit_ip_deny st now ip p limit window v n hip hn hge] at h
        simp at h
      · rw [OTPRateLimit_ip_ok st now ip p limit window v n hip hn hge] at h ⊢
        set st1 := st.incr now (ipRateLimitKey ip) with hst1
        obtain ⟨hpcount, hframe⟩ := otpRateLimitPhone_next_count st1 now p limit window hp h
        refine ⟨?_, ?_, ?_⟩
        · rw [Store.getCount_congr st1 _ now (ipRateLimitKey ip) (hframe _ hkeys)]
          exact Store.getCount_incr st now (ipRateLimitKey ip) v n hip hn
        · rw [hpcount]
          have : st1 (phoneRateLimitKey p) = st (phoneRateLimitKey p) :=
            Store.incr_apply_ne st now (ipRateLimitKey ip) _ hkeys.symm
          rw [Store.getCount_congr st st1 now (phoneRateLimitKey p) this]
        · intro k hk1 hk2
          rw [hframe k hk2]
          exact Store.incr_apply_ne st now (ipRateLimitKey ip) k hk1

/-! ## General lemmas: `GenerateOTP` steps and sequential runs -/

lemma GenerateOTP_fresh (cfg : Config) (st : Store) (now : Nat) (p : String) (draw : Nat)
    (h : st.get now (rateLimitKey p) = none) (hlim : (0 : Int) < cfg.otp.rateLimit.count) :
    AuthService.GenerateOTP cfg st now p draw
      = (.ok (AuthService.generateRandomOTP cfg.otp.length draw),
         (StoreOTP st now p (AuthService.generateRandomOTP cfg.otp.length draw)
             cfg.GetOTPExpiration).set now
           (rateLimitKey p) (.vint 1) cfg.GetRateLimitDuration) := by
  have hfr : (StoreOTP st now p (AuthService.generateRandomOTP cfg.otp.length draw)
      cfg.GetOTPExpiration) (rateLimitKey p) = st (rateLimitKey p) :=
    Store.set_apply_ne st now (otpKey p) _ _ _ (Ne.symm (otpKey_ne_rateLimitKey p p))
  have hget1 : (StoreOTP st now p (AuthService.generateRandomOTP cfg.otp.length draw)
      cfg.GetOTPExpiration).get now (rateLimitKey p) = none := by
    rw [Store.get_eq_of_apply_eq st _ now _ hfr]
    exact h
  simp only [AuthService.GenerateOTP, CheckRateLimit, h,
    decide_eq_false (not_le.mpr hlim), IncrementRateLimit, Store.existsKey, hget1,
    Option.isSome_none, Bool.false_eq_true, if_false]

lemma GenerateOTP_incr (cfg : Config) (st : Store) (now : Nat) (p : String) (draw : Nat)
    (c : Int) (texp : Nat) (hraw : st (rateLimitKey p) = some ⟨.vint c, some texp⟩)
    (hlive : now < texp) (hc : c < cfg.otp.rateLimit.count) :
    (AuthService.GenerateOTP cfg st now p draw).1
        = .ok (AuthService.generateRandomOTP cfg.otp.length draw) ∧
    (AuthService.GenerateOTP cfg st now p draw).2 (rateLimitKey p)
        = some ⟨.vint (c + 1), some texp⟩ := by
  have hlive2 : Entry.live ⟨.vint c, some texp⟩ now = true := by
    rw [Entry.live_some]
    exact decide_eq_true hlive
  have hget : st.get now (rateLimitKey p) = some (.vint c) :=
    Store.get_of_raw_live st now (rateLimitKey p) _ hraw hlive2
  have hfr : (StoreOTP st now p (AuthService.generateRandomOTP cfg.otp.length draw)
      cfg.GetOTPExpiration) (rateLimitKey p) = st (rateLimitKey p) :=
    Store.set_apply_ne st now (otpKey p) _ _ _ (Ne.symm (otpKey_ne_rateLimitKey p p))
  have hraw1 : (StoreOTP st now p (AuthService.generateRandomOTP cfg.otp.length draw)
      cfg.GetOTPExpiration) (rateLimitKey p) = some ⟨.vint c, some texp⟩ := by
    rw [hfr]
    exact hraw
  have hget1 : (StoreOTP st now p (AuthService.generateRandomOTP cfg.otp.length draw)
      cfg.GetOTPExpiration).get now (rateLimitKey p) = some (.vint c) :=
    Store.get_of_raw_live _ now (rateLimitKey p) _ hraw1 hlive2
  have hincr : ((StoreOTP st now p (AuthService.generateRandomOTP cfg.otp.length draw)
      cfg.GetOTPExpiration).incr now (rateLimitKey p)) (rateLimitKey p)
      = some ⟨.vint (c + 1), some texp⟩ := by
    rw [Store.incr_apply_self_live _ now (rateLimitKey p) _ hraw1 hlive2]
  simp only [AuthService.GenerateOTP, CheckRateLimit, hget, RVal.toIntResult,
    decide_eq_false (not_le.mpr hc), IncrementRateLimit, Store.existsKey, hget1,
    Option.isSome_some, if_true]
  exact ⟨trivial, hincr⟩

lemma GenerateOTP_deny (cfg : Config) (st : Store) (now : Nat) (p : String) (draw : Nat)
    (c : Int) (hget : st.get now (rateLimitKey p) = some (.vint c))
    (hc : cfg.otp.rateLimit.count ≤ c) :
    AuthService.GenerateOTP cfg st now p draw = (.error "rate limit exceeded", st) := by
  simp only [AuthService.GenerateOTP, CheckRateLimit, hget, RVal.toIntResult,
    decide_eq_true hc]

lemma runRequests_admitted (cfg : Config) (p : String) (texp : Nat) :
    ∀ (ts : List (Nat × Nat)) (st : Store) (c : Nat),
    st (rateLimitKey p) = some ⟨.vint (c : Int), some texp⟩ →
    (∀ td ∈ ts, td.1 < texp) →
    ((c : Int) + ts.length ≤ cfg.otp.rateLimit.count) →
    (runRequests cfg p ts st).2 = List.replicate ts.length true ∧
    (runRequests cfg p ts st).1 (rateLimitKey p)
      = some ⟨.vint ((c + ts.length : Nat) : Int), some texp⟩ := by
  intro ts
  induction ts with
  | nil =>
    intro st c hst _ _
    exact ⟨rfl, by simpa using hst⟩
  | cons td rest ih =>
    obtain ⟨now, draw⟩ := td
    intro st c hst htimes hcount
    have hlive : now < texp := htimes (now, draw) (by simp)
    have hc : (c : Int) < cfg.otp.rateLimit.count := by
      simp only [List.length_cons] at hcount
      push_cast at hcount
      omega
    obtain ⟨hres, hkey⟩ := GenerateOTP_incr cfg st now p draw (c : Int) texp hst hlive hc
    have hkey2 : (AuthService.GenerateOTP cfg st now p draw).2 (rateLimitKey p)
        = some ⟨.vint ((c + 1 : Nat) : Int), some texp⟩ := by
      rw [hkey]
      push_cast
      rfl
    obtain ⟨ih1, ih2⟩ := ih (AuthService.GenerateOTP cfg st now p draw).2 (c + 1) hkey2
      (fun td h => htimes td (by simp [h]))
      (by simp only [List.length_cons] at hcount; push_cast at hcount ⊢; omega)
    simp only [runRequests]
    cases hgen : AuthService.GenerateOTP cfg st now p draw with
    | mk res st1 =>
      rw [hgen] at hres ih1 ih2
      simp only at hres ih1 ih2
      subst hres
      cases hrun : runRequests cfg p rest st1 with
      | mk st2 results =>
        rw [hrun] at ih1 ih2
        simp only at ih1 ih2 ⊢
        constructor
        · rw [List.length_cons, List.replicate_succ, ih1]
        · rw [ih2]
          have harith : c + 1 + rest.length = c + (rest.length + 1) := by omega
          rw [List.length_cons, harith]

end OTPAuth

namespace OTPAuth

/-! ## Claim C1 -/

/-- C1 counterexample: a malformed, non-empty phone number (`"12345"`) sent to
the request-OTP route from an empty store is rejected with the validation
error, yet both middleware rate-limit counters (IP scope and phone scope) were
created by that same request before validation ran, so the operation did touch
the key-value store. -/
theorem c1_counterexample :
    (RequestOTPPipeline sampleConfig emptyStore 0 "1.2.3.4" "12345" 0).1
        = .badRequest invalidPhoneMsg ∧
    emptyStore (ipRateLimitKey "1.2.3.4") = none ∧
    emptyStore (phoneRateLimitKey "12345") = none ∧
    (RequestOTPPipeline sampleConfig emptyStore 0 "1.2.3.4" "12345" 0).2
        (ipRateLimitKey "1.2.3.4") = some ⟨.vint 1, some 60⟩ ∧
    (RequestOTPPipeline sampleConfig emptyStore 0 "1.2.3.4" "12345" 0).2
        (phoneRateLimitKey "12345") = some ⟨.vint 1, some 60⟩ :=
  ⟨rfl, rfl, rfl, rfl, rfl⟩

/-- C1 (amended): a RequestChallenge whose identity is malformed (non-empty
but failing the phone-shape check) and which the rate-limit middleware admits
returns the ValidationError and issues no challenge, but the middleware has
already read and created-or-incremented both the source-address counter and
the per-phone counter before validation rejected the input; no other key is
touched. -/
theorem c1_amended (cfg : Config) (st : Store) (now : Nat) (ip phoneNumber : String)
    (draw : Nat) (hne : phoneNumber ≠ "") (hbad : validIranianPhone phoneNumber = false)
    (hnext : (OTPRateLimit st now ip phoneNumber cfg.otp.rateLimit.count
        cfg.GetRateLimitDuration).1 = .next) :
    RequestOTPPipeline cfg st now ip phoneNumber draw
        = (.badRequest invalidPhoneMsg,
           (OTPRateLimit st now ip phoneNumber cfg.otp.rateLimit.count
             cfg.GetRateLimitDuration).2) ∧
    Store.getCount (OTPRateLimit st now ip phoneNumber cfg.otp.rateLimit.count
          cfg.GetRateLimitDuration).2 now (ipRateLimitKey ip)
        = Store.getCount st now (ipRateLimitKey ip) + 1 ∧
    Store.getCount (OTPRateLimit st now ip phoneNumber cfg.otp.rateLimit.count
          cfg.GetRateLimitDuration).2 now (phoneRateLimitKey phoneNumber)
        = Store.getCount st now (phoneRateLimitKey phoneNumber) + 1 ∧
    (∀ k, k ≠ ipRateLimitKey ip → k ≠ phoneRateLimitKey phoneNumber →
      (OTPRateLimit st now ip phoneNumber cfg.otp.rateLimit.count
        cfg.GetRateLimitDuration).2 k = st k) := by
  obtain ⟨hipc, hpc, hframe⟩ :=
    OTPRateLimit_next_counts st now ip phoneNumber cfg.otp.rateLimit.count
      cfg.GetRateLimitDuration hne hnext
  refine ⟨?_, hipc, hpc, hframe⟩
  unfold RequestOTPPipeline
  cases hmw : OTPRateLimit st now ip phoneNumber cfg.otp.rateLimit.count
      cfg.GetRateLimitDuration with
  | mk o st2 =>
    rw [hmw] at hnext
    simp only at hnext
    subst hnext
    simp only
    unfold AuthHandler.RequestOTP
    rw [if_neg hne, if_pos hbad]

/-- C1 witness: the amended statement applied to the concrete counterexample
inputs. -/
theorem c1_amended_witness :
    RequestOTPPipeline sampleConfig emptyStore 0 "1.2.3.4" "12345" 0
      = (.badRequest invalidPhoneMsg,
         (OTPRateLimit emptyStore 0 "1.2.3.4" "12345" sampleConfig.otp.rateLimit.count
           sampleConfig.GetRateLimitDuration).2) :=
  (c1_amended sampleConfig emptyStore 0 "1.2.3.4" "12345" 0 (by decide) (by decide)
    (by decide)).1

/-! ## Claim C2 -/

/-- C2 counterexample: `"999999"` is a 6-digit numeric string with a non-zero
leading digit, yet no random draw can make `generateRandomOTP` produce it at
code length 6 — the generator's range stops at `9·10^5 = 900000`, so the
claimed "every such string is a possible output" fails. -/
theorem c2_counterexample :
    OTPStringShape 6 "999999" = true ∧
      ∀ draw : Nat, AuthService.generateRandomOTP 6 draw ≠ "999999" := by
  refine ⟨by decide, ?_⟩
  intro draw h
  rw [generateRandomOTP_def] at h
  have hspan : draw % (8 * 10 ^ (6 - 1) + 1) < 800001 := by
    have := Nat.mod_lt draw (y := 8 * 10 ^ (6 - 1) + 1) (by norm_num)
    omega
  have h9 : ("999999" : String) = Nat.repr 999999 := rfl
  rw [h9] at h
  have := repr_injective _ _ (by positivity) (by norm_num) h
  norm_num at this
  omega

/-- C2 (amended): for every code length `1 ≤ L ≤ 19` (when the Go `int64`
arithmetic does not overflow) and every draw below the generator's span, the
output is an `L`-digit numeric string with non-zero leading digit; distinct
draws give distinct outputs (so a uniform draw is uniform over the emitted
set); and the emitted set is exactly the decimal representations of
`[10^(L-1), 9·10^(L-1)]` — not the full set of `L`-digit strings. -/
theorem c2_amended (L : Nat) (h1 : 1 ≤ L) (h19 : L ≤ 19) :
    (∀ draw, draw < AuthService.otpSpan L →
      OTPStringShape L (AuthService.generateRandomOTP L draw) = true) ∧
    (∀ d1, d1 < AuthService.otpSpan L → ∀ d2, d2 < AuthService.otpSpan L →
      AuthService.generateRandomOTP L d1 = AuthService.generateRandomOTP L d2 → d1 = d2) ∧
    (∀ v, 10 ^ (L - 1) ≤ v → v ≤ 9 * 10 ^ (L - 1) →
      ∃ d, d < AuthService.otpSpan L ∧ AuthService.generateRandomOTP L d = Nat.repr v) := by
  have hpow : 1 ≤ 10 ^ (L - 1) := Nat.one_le_pow _ _ (by norm_num)
  have hspan : AuthService.otpSpan L = 8 * 10 ^ (L - 1) + 1 := by
    unfold AuthService.otpSpan
    rw [powInt_eq_pow]
    omega
  refine ⟨?_, ?_, ?_⟩
  · intro draw hd
    rw [generateRandomOTP_eq L draw hd]
    apply shape_of_range L _ h1
    · omega
    · have hps : 10 ^ (L - 1 + 1) = 10 ^ (L - 1) * 10 := pow_succ 10 (L - 1)
      have hL : L - 1 + 1 = L := by omega
      rw [hL] at hps
      rw [hspan] at hd
      omega
  · intro d1 hd1 d2 hd2 h
    rw [generateRandomOTP_eq L d1 hd1, generateRandomOTP_eq L d2 hd2] at h
    have := repr_injective _ _ (by omega) (by omega) h
    omega
  · intro v hlo hhi
    refine ⟨v - 10 ^ (L - 1), by omega, ?_⟩
    rw [generateRandomOTP_eq L _ (by omega)]
    congr 1
    omega

/-- C2 witness: the amended statement at length 6 on a concrete draw. -/
theorem c2_amended_witness :
    OTPStringShape 6 (AuthService.generateRandomOTP 6 123456) = true :=
  (c2_amended 6 (by norm_num) (by norm_num)).1 123456 (by decide)

/-! ## Claim C3 -/

/-- C3 counterexample: the session issuer's configured algorithm is HS256, yet
a well-formed unexpired token signed with HS384 using the correct secret is
accepted by `AuthRequired` — the keyfunc only pins the HMAC family, so the
claimed rejection of every non-HS256 algorithm fails. -/
theorem c3_counterexample :
    (AuthService.generateJWT sampleConfig 0 ⟨"u-1", "09123456789"⟩).alg = JWTAlg.HS256 ∧
    AuthRequired (fun _ => true) "secret" 0
        ⟨.HS384, ⟨"u-1", "09123456789", 3600⟩,
         ⟨.HS384, "secret", ⟨"u-1", "09123456789", 3600⟩⟩⟩
      = .authorized "u-1" "09123456789" :=
  ⟨rfl, rfl⟩

/-- C3 (amended): session verification rejects every token whose algorithm is
outside the HMAC family (`RS256`, `ES256`, `none`, ...) with the
unexpected-signing-method error; the pinning is to the HMAC family rather than
to the single configured algorithm HS256. -/
theorem c3_amended (uuidOk : String → Bool) (secret : String) (now : Int) (tok : JWTToken)
    (h : tok.alg.isHMAC = false) :
    AuthRequired uuidOk secret now tok
      = .unauthorized
          ("Invalid token: " ++ ("unexpected signing method: " ++ tok.alg.name)) := by
  unfold AuthRequired jwtParse
  rw [h]
  simp

/-- C3 witness: an RS256-signed token is rejected even with the correct
secret. -/
theorem c3_amended_witness :
    AuthRequired (fun _ => true) "secret" 0
        ⟨.RS256, ⟨"u-1", "09123456789", 3600⟩,
         ⟨.RS256, "secret", ⟨"u-1", "09123456789", 3600⟩⟩⟩
      = .unauthorized ("Invalid token: " ++ ("unexpected signing method: " ++ "RS256")) :=
  c3_amended (fun _ => true) "secret" 0
    ⟨.RS256, ⟨"u-1", "09123456789", 3600⟩,
     ⟨.RS256, "secret", ⟨"u-1", "09123456789", 3600⟩⟩⟩ rfl

end OTPAuth

namespace OTPAuth

/-! ## Claim C4 -/

/-- C4: starting with no counter for the identity, a sequence of `limit`
sequential `GenerateOTP` calls inside one window (first call at `t0`, the rest
before `t0 + window`) is fully admitted; a further call in the same window is
rejected with `rate limit exceeded` leaving the store unchanged; and a call at
or after `t0 + window` is admitted again with the counter freshly initialized
to 1 and a fresh TTL. -/
theorem c4_rate_limit_boundary (cfg : Config) (phoneNumber : String) (t0 d0 : Nat)
    (rest : List (Nat × Nat)) (tDeny dDeny tFresh dFresh : Nat) (st : Store)
    (hraw0 : st (rateLimitKey phoneNumber) = none)
    (hlim : 1 ≤ cfg.otp.rateLimit.count)
    (hW : 0 < cfg.GetRateLimitDuration)
    (hlen : (rest.length : Int) + 1 = cfg.otp.rateLimit.count)
    (hrest : ∀ td ∈ rest, td.1 < t0 + cfg.GetRateLimitDuration)
    (hDeny : tDeny < t0 + cfg.GetRateLimitDuration)
    (hFresh : t0 + cfg.GetRateLimitDuration ≤ tFresh) :
    (runRequests cfg phoneNumber ((t0, d0) :: rest) st).2
        = List.replicate (rest.length + 1) true ∧
    AuthService.GenerateOTP cfg (runRequests cfg phoneNumber ((t0, d0) :: rest) st).1
        tDeny phoneNumber dDeny
      = (.error "rate limit exceeded",
         (runRequests cfg phoneNumber ((t0, d0) :: rest) st).1) ∧
    (AuthService.GenerateOTP cfg (runRequests cfg phoneNumber ((t0, d0) :: rest) st).1
        tFresh phoneNumber dFresh).1
      = .ok (AuthService.generateRandomOTP cfg.otp.length dFresh) ∧
    (AuthService.GenerateOTP cfg (runRequests cfg phoneNumber ((t0, d0) :: rest) st).1
        tFresh phoneNumber dFresh).2 (rateLimitKey phoneNumber)
      = some ⟨.vint 1, some (tFresh + cfg.GetRateLimitDuration)⟩ := by
  have hget0 : st.get t0 (rateLimitKey phoneNumber) = none :=
    Store.get_none_of_raw_none st t0 (rateLimitKey phoneNumber) hraw0
  have hfirst := GenerateOTP_fresh cfg st t0 phoneNumber d0 hget0 (by omega)
  set stA := (StoreOTP st t0 phoneNumber (AuthService.generateRandomOTP cfg.otp.length d0)
      cfg.GetOTPExpiration).set t0
    (rateLimitKey phoneNumber) (.vint 1) cfg.GetRateLimitDuration with hstA
  have hA1 : stA (rateLimitKey phoneNumber)
      = some ⟨.vint ((1 : Nat) : Int), some (t0 + cfg.GetRateLimitDuration)⟩ := by
    rw [hstA, Store.set_apply_self]
    simp [Nat.pos_iff_ne_zero.mp hW]
  obtain ⟨hres, hcounter⟩ := runRequests_admitted cfg phoneNumber
    (t0 + cfg.GetRateLimitDuration) rest stA 1 hA1 hrest
    (by push_cast; omega)
  have hrunEq : runRequests cfg phoneNumber ((t0, d0) :: rest) st
      = ((runRequests cfg phoneNumber rest stA).1,
         true :: (runRequests cfg phoneNumber rest stA).2) := by
    simp only [runRequests, hfirst]
  have hF : (runRequests cfg phoneNumber ((t0, d0) :: rest) st).1 (rateLimitKey phoneNumber)
      = some ⟨.vint ((1 + rest.length : Nat) : Int),
          some (t0 + cfg.GetRateLimitDuration)⟩ := by
    rw [hrunEq]
    exact hcounter
  have hliveDeny : Entry.live
      ⟨.vint ((1 + rest.length : Nat) : Int), some (t0 + cfg.GetRateLimitDuration)⟩ tDeny
        = true := by
    rw [Entry.live_some]
    exact decide_eq_true hDeny
  have hgetDeny : (runRequests cfg phoneNumber ((t0, d0) :: rest) st).1.get tDeny
      (rateLimitKey phoneNumber) = some (.vint ((1 + rest.length : Nat) : Int)) :=
    Store.get_of_raw_live _ tDeny _ _ hF hliveDeny
  have hdeadFresh : Entry.live
      ⟨.vint ((1 + rest.length : Nat) : Int), some (t0 + cfg.GetRateLimitDuration)⟩ tFresh
        = false := by
    rw [Entry.live_some]
    exact decide_eq_false (not_lt.mpr hFresh)
  have hgetFresh : (runRequests cfg phoneNumber ((t0, d0) :: rest) st).1.get tFresh
      (rateLimitKey phoneNumber) = none :=
    Store.get_none_of_dead _ tFresh _ _ hF hdeadFresh
  have hfreshEq := GenerateOTP_fresh cfg
    (runRequests cfg phoneNumber ((t0, d0) :: rest) st).1 tFresh phoneNumber dFresh
    hgetFresh (by omega)
  refine ⟨?_, ?_, ?_, ?_⟩
  · rw [hrunEq]
    simp only
    rw [hres, List.replicate_succ]
  · exact GenerateOTP_deny cfg _ tDeny phoneNumber dDeny _ hgetDeny (by push_cast; omega)
  · rw [hfreshEq]
  · rw [hfreshEq]
    simp only
    rw [Store.set_apply_self, if_neg (by omega)]

/-- C4 witness: limit 3, window 60 s, calls at t = 0, 10, 20 all admitted,
call 4 at t = 30 rejected without a store change, and a call at t = 60
admitted with a counter re-armed to 1 expiring at 120. -/
theorem c4_witness :
    (runRequests sampleConfig "09123456789" [(0, 0), (10, 1), (20, 2)] emptyStore).2
        = [true, true, true] ∧
    AuthService.GenerateOTP sampleConfig
        (runRequests sampleConfig "09123456789" [(0, 0), (10, 1), (20, 2)] emptyStore).1
        30 "09123456789" 7
      = (.error "rate limit exceeded",
         (runRequests sampleConfig "09123456789" [(0, 0), (10, 1), (20, 2)] emptyStore).1) ∧
    (AuthService.GenerateOTP sampleConfig
        (runRequests sampleConfig "09123456789" [(0, 0), (10, 1), (20, 2)] emptyStore).1
        60 "09123456789" 8).1
      = .ok (AuthService.generateRandomOTP 6 8) ∧
    (AuthService.GenerateOTP sampleConfig
        (runRequests sampleConfig "09123456789" [(0, 0), (10, 1), (20, 2)] emptyStore).1
        60 "09123456789" 8).2 (rateLimitKey "09123456789")
      = some ⟨.vint 1, some 120⟩ :=
  c4_rate_limit_boundary sampleConfig "09123456789" 0 0 [(10, 1), (20, 2)] 30 7 60 8
    emptyStore rfl (by decide) (by decide) (by decide) (by decide) (by decide) (by decide)

/-! ## Claim C5 -/

/-- C5: whenever the OTP rate-limit middleware denies a request at the
identity (phone) scope, the source-address counter has already been read and
created-or-incremented by that same request, and the increment is still in
place in the resulting store (count exactly one higher than before). -/
theorem c5_address_recorded_first (st : Store) (now : Nat) (ip phoneNumber : String)
    (limit : Int) (window : Nat)
    (hden : (OTPRateLimit st now ip phoneNumber limit window).1 = .tooManyPhone) :
    Store.getCount (OTPRateLimit st now ip phoneNumber limit window).2 now
        (ipRateLimitKey ip)
      = Store.getCount st now (ipRateLimitKey ip) + 1 := by
  cases hip : st.get now (ipRateLimitKey ip) with
  | none =>
    rw [OTPRateLimit_ip_none st now ip phoneNumber limit window hip] at hden ⊢
    rw [otpRateLimitPhone_deny_frame _ now phoneNumber limit window hden]
    exact Store.getCount_set_one st now (ipRateLimitKey ip) window hip
  | some v =>
    cases hn : v.toIntResult with
    | error e =>
      rw [OTPRateLimit_ip_err st now ip phoneNumber limit window v e hip hn] at hden
      simp at hden
    | ok n =>
      by_cases hge : n ≥ limit * 2
      · rw [OTPRateLimit_ip_deny st now ip phoneNumber limit window v n hip hn hge] at hden
        simp at hden
      · rw [OTPRateLimit_ip_ok st now ip phoneNumber limit window v n hip hn hge] at hden ⊢
        rw [otpRateLimitPhone_deny_frame _ now phoneNumber limit window hden]
        exact Store.getCount_incr st now (ipRateLimitKey ip) v n hip hn

/-- C5 witness: with the phone counter already at the limit and no IP counter,
the middleware denies on the phone scope and leaves a fresh IP counter of 1
behind. -/
theorem c5_witness :
    (OTPRateLimit c5Store 0 "9.9.9.9" "09123456789" 3 60).1 = .tooManyPhone ∧
    Store.getCount (OTPRateLimit c5Store 0 "9.9.9.9" "09123456789" 3 60).2 0
        (ipRateLimitKey "9.9.9.9")
      = Store.getCount c5Store 0 (ipRateLimitKey "9.9.9.9") + 1 :=
  ⟨by decide, c5_address_recorded_first c5Store 0 "9.9.9.9" "09123456789" 3 60 (by decide)⟩

/-! ## Claim C6 -/

/-- C6: with a well-formed phone number and a 6-digit numeric code, the verify
handler returns the identical 401 `Invalid or expired OTP` response both when
no challenge is stored (absent or expired) and when a stored challenge's code
differs from the submitted code under exact string equality; the store is
untouched in both cases. -/
theorem c6_collapsed_error (find create : String → Except String User)
    (sign : User → Except String JWTToken) (st : Store) (now : Nat) (phoneNumber code : String)
    (hphone : validIranianPhone phoneNumber = true) (hlen : code.length = 6)
    (hdig : code.data.all Char.isDigit = true) :
    (st.get now (otpKey phoneNumber) = none →
      AuthHandler.VerifyOTP find create sign st now phoneNumber code
        = (.unauthorized "Invalid or expired OTP", st)) ∧
    (∀ v : RVal, st.get now (otpKey phoneNumber) = some v → v.asString ≠ code →
      AuthHandler.VerifyOTP find create sign st now phoneNumber code
        = (.unauthorized "Invalid or expired OTP", st)) :=
  ⟨fun habs => VerifyOTPHandler_invalid_of_absent find create sign st now phoneNumber code
      hphone hlen hdig habs,
   fun v hv hne => VerifyOTPHandler_invalid_of_mismatch find create sign st now phoneNumber
      code v hphone hlen hdig hv hne⟩

/-- C6 witness: the two cases (no stored challenge; a stored challenge
`654321` against submitted `123456`) produce the same 401 response. -/
theorem c6_witness :
    AuthHandler.VerifyOTP findOk createOk signOk emptyStore 0 "09123456789" "123456"
        = (.unauthorized "Invalid or expired OTP", emptyStore) ∧
    AuthHandler.VerifyOTP findOk createOk signOk (storeWith "09123456789" "654321") 0
        "09123456789" "123456"
        = (.unauthorized "Invalid or expired OTP", storeWith "09123456789" "654321") :=
  ⟨(c6_collapsed_error findOk createOk signOk emptyStore 0 "09123456789" "123456"
      (by decide) (by decide) (by decide)).1 rfl,
   (c6_collapsed_error findOk createOk signOk (storeWith "09123456789" "654321") 0
      "09123456789" "123456" (by decide) (by decide) (by decide)).2 (.vstr "654321") rfl
      (by decide)⟩

/-! ## Claim C7 -/

/-- C7: a verify call whose submitted code does not match the live stored
challenge fails with `invalid OTP` and returns the store completely unchanged,
so the stored challenge survives; and as long as the challenge is still live,
a later call with the correct code succeeds. -/
theorem c7_wrong_code_preserves_challenge (find create : String → Except String User)
    (sign : User → Except String JWTToken) (st : Store) (now : Nat) (phoneNumber code : String)
    (v : RVal) (hv : st.get now (otpKey phoneNumber) = some v) (hne : v.asString ≠ code) :
    AuthService.VerifyOTP find create sign st now phoneNumber code
      = (.error "invalid OTP", st) ∧
    (∀ now2 user token, st.get now2 (otpKey phoneNumber) = some v →
      find phoneNumber = .ok user → sign user = .ok token →
      AuthService.VerifyOTP find create sign st now2 phoneNumber (v.asString)
        = (.ok (token, user), DeleteOTP st phoneNumber)) := by
  constructor
  · exact VerifyOTP_mismatch find create sign st now phoneNumber code v hv hne
  · intro now2 user token hv2 hfind hsign
    rw [VerifyOTP_match find create sign st now2 phoneNumber (v.asString) v hv2 rfl, hfind]
    simp [hsign]

/-- C7 witness: a wrong guess against stored `654321` leaves the store
unchanged. -/
theorem c7_witness :
    AuthService.VerifyOTP findOk createOk signOk (storeWith "09123456789" "654321") 0
        "09123456789" "123456"
      = (.error "invalid OTP", storeWith "09123456789" "654321") :=
  (c7_wrong_code_preserves_challenge findOk createOk signOk
    (storeWith "09123456789" "654321") 0 "09123456789" "123456" (.vstr "654321") rfl
    (by decide)).1

/-! ## Claim C8 -/

/-- C8: after a successful verification for an identity and code, an
immediately following sequential verify call through the handler with the same
identity and code — at any later time, and with any directory/signing
collaborators — returns the 401 `Invalid or expired OTP` response. -/
theorem c8_single_use (find create find2 create2 : String → Except String User)
    (sign sign2 : User → Except String JWTToken) (st st1 : Store) (now now2 : Nat)
    (phoneNumber code : String) (token : JWTToken) (user : User)
    (hphone : validIranianPhone phoneNumber = true) (hlen : code.length = 6)
    (hdig : code.data.all Char.isDigit = true)
    (h : AuthService.VerifyOTP find create sign st now phoneNumber code
      = (.ok (token, user), st1)) :
    AuthHandler.VerifyOTP find2 create2 sign2 st1 now2 phoneNumber code
      = (.unauthorized "Invalid or expired OTP", st1) := by
  have hst1 : st1 = DeleteOTP st phoneNumber :=
    VerifyOTP_ok_store find create sign st now phoneNumber code (token, user) st1 h
  have habs : st1.get now2 (otpKey phoneNumber) = none := by
    rw [hst1]
    exact Store.get_del_self st now2 (otpKey phoneNumber)
  exact VerifyOTPHandler_invalid_of_absent find2 create2 sign2 st1 now2 phoneNumber code
    hphone hlen hdig habs

/-- C8 witness: verify succeeds against stored `123456`, and the immediate
repeat with the same code is rejected as invalid-or-expired. -/
theorem c8_witness :
    AuthHandler.VerifyOTP findOk createOk signOk
        (DeleteOTP (storeWith "09123456789" "123456") "09123456789") 1 "09123456789" "123456"
      = (.unauthorized "Invalid or expired OTP",
         DeleteOTP (storeWith "09123456789" "123456") "09123456789") :=
  c8_single_use findOk createOk findOk createOk signOk signOk
    (storeWith "09123456789" "123456")
    (DeleteOTP (storeWith "09123456789" "123456") "09123456789") 0 1 "09123456789" "123456"
    sampleToken sampleUser (by decide) (by decide) (by decide) rfl

/-! ## Claim C9 -/

/-- C9: when the submitted code matches the stored challenge, the challenge is
deleted from the resulting store no matter how identity lookup, identity
creation, or token signing turn out; if lookup and creation both fail the
operation reports the creation error, if signing fails it reports the signing
error — and in every case a retry with the same code finds no challenge and
returns the not-found-or-expired error. -/
theorem c9_consume_before_resolution (find create : String → Except String User)
    (sign : User → Except String JWTToken) (st : Store) (now : Nat) (phoneNumber code : String)
    (v : RVal) (hv : st.get now (otpKey phoneNumber) = some v) (heq : v.asString = code) :
    (AuthService.VerifyOTP find create sign st now phoneNumber code).2 (otpKey phoneNumber)
        = none ∧
    (∀ e1 e2, find phoneNumber = .error e1 → create phoneNumber = .error e2 →
      (AuthService.VerifyOTP find create sign st now phoneNumber code).1
        = .error ("error creating user: " ++ e2)) ∧
    (∀ user e3, find phoneNumber = .ok user → sign user = .error e3 →
      (AuthService.VerifyOTP find create sign st now phoneNumber code).1
        = .error ("error generating JWT: " ++ e3)) ∧
    (∀ (now2 : Nat) (find2 create2 : String → Except String User)
        (sign2 : User → Except String JWTToken),
      (AuthService.VerifyOTP find2 create2 sign2
          ((AuthService.VerifyOTP find create sign st now phoneNumber code).2)
          now2 phoneNumber code).1
        = .error "error retrieving OTP: OTP not found or expired") := by
  have hsnd : (AuthService.VerifyOTP find create sign st now phoneNumber code).2
      = DeleteOTP st phoneNumber := by
    rw [VerifyOTP_match find create sign st now phoneNumber code v hv heq]
  refine ⟨?_, ?_, ?_, ?_⟩
  · rw [hsnd]
    exact Store.del_apply_self st (otpKey phoneNumber)
  · intro e1 e2 hfind hcreate
    rw [VerifyOTP_match find create sign st now phoneNumber code v hv heq, hfind]
    simp [hcreate]
  · intro user e3 hfind hsign
    rw [VerifyOTP_match find create sign st now phoneNumber code v hv heq, hfind]
    simp [hsign]
  · intro now2 find2 create2 sign2
    rw [hsnd,
      VerifyOTP_no_challenge find2 create2 sign2 (DeleteOTP st phoneNumber) now2 phoneNumber
        code (Store.get_del_self st now2 (otpKey phoneNumber))]

/-- C9 witness: with a matching code but a failing directory (lookup and
create both error), the call fails with the creation error, yet the challenge
is consumed and a retry reports not-found-or-expired. -/
theorem c9_witness :
    (AuthService.VerifyOTP findErr createErr signOk (storeWith "09123456789" "123456") 0
        "09123456789" "123456").2 (otpKey "09123456789") = none ∧
    (AuthService.VerifyOTP findErr createErr signOk (storeWith "09123456789" "123456") 0
        "09123456789" "123456").1 = .error ("error creating user: " ++ "insert failed") ∧
    (AuthService.VerifyOTP findOk createOk signOk
        ((AuthService.VerifyOTP findErr createErr signOk (storeWith "09123456789" "123456") 0
          "09123456789" "123456").2) 1 "09123456789" "123456").1
      = .error "error retrieving OTP: OTP not found or expired" :=
  have hc9 := c9_consume_before_resolution findErr createErr signOk
    (storeWith "09123456789" "123456") 0 "09123456789" "123456" (.vstr "123456") rfl rfl
  ⟨hc9.1,
   hc9.2.1 "error finding user by phone number: connection refused" "insert failed" rfl rfl,
   hc9.2.2.2 1 findOk createOk signOk⟩

/-! ## Claim C10 -/

/-- C10: with a matching code, every error from the identity-directory lookup
— whatever its message, including a backing-database failure — sends the
orchestrator into the create-new-identity branch: the outcome is exactly that
of `Create` (and then signing), with the challenge consumed. -/
theorem c10_any_find_error_creates (find create : String → Except String User)
    (sign : User → Except String JWTToken) (st : Store) (now : Nat) (phoneNumber code : String)
    (v : RVal) (e : String) (hv : st.get now (otpKey phoneNumber) = some v)
    (heq : v.asString = code) (hfind : find phoneNumber = .error e) :
    AuthService.VerifyOTP find create sign st now phoneNumber code
      = ((match create phoneNumber with
          | .ok user =>
            match sign user with
            | .ok token => Except.ok (token, user)
            | .error e2 => Except.error ("error generating JWT: " ++ e2)
          | .error e2 => Except.error ("error creating user: " ++ e2)),
         DeleteOTP st phoneNumber) := by
  rw [VerifyOTP_match find create sign st now phoneNumber code v hv heq, hfind]
  cases hc : create phoneNumber with
  | ok user =>
    simp only [hc]
    cases hs : sign user <;> simp [hs]
  | error e2 => simp [hc]

/-- C10 witness: a database-failure lookup error still leads to `Create`,
which succeeds, so verification mints a session for the newly created user. -/
theorem c10_witness :
    AuthService.VerifyOTP findErr createOk signOk (storeWith "09123456789" "123456") 0
        "09123456789" "123456"
      = (.ok (sampleToken, sampleUser),
         DeleteOTP (storeWith "09123456789" "123456") "09123456789") :=
  c10_any_find_error_creates findErr createOk signOk (storeWith "09123456789" "123456") 0
    "09123456789" "123456" (.vstr "123456")
    "error finding user by phone number: connection refused" rfl rfl rfl

end OTPAuth
